import Mathlib

/-!
Verification of the repository's single source file, `src/tailwind.config.js`,
against its natural-language specification.

The file is a declarative configuration object literal: it requires the
framework default theme, and exports a record with a `content` field of two
glob patterns, a `theme.extend` field spreading the default theme, a
`plugins` field requiring the forms plugin, and a `safelist` field holding
the single class name `invisible`.

Objects with string keys are embedded as association lists, the exported
record as a structure.  The behaviour of the external consuming tool
(content scanning, safelist inclusion, dark-mode gating, theme merging) is
not part of the repository: those definitions are modelled from the spec and
marked as such.
-/

namespace TailwindConfig

/-- A theme object as it appears under the `theme` key of the configuration:
it has a single `extend` sub-object, embedded as an association list from
token names to token values. -/
structure ThemeSection where
  extend : List (String × String)
  deriving Repr, DecidableEq

/-- The configuration record exported by `src/tailwind.config.js`.
Fields mirror the top-level keys of the object literal; `darkMode` is
`Option`-valued because the key is absent in the source file. -/
structure Config where
  content : List String
  darkMode : Option String
  theme : ThemeSection
  plugins : List String
  safelist : List String
  deriving Repr, DecidableEq

/-- The spread of `defaultTheme` appearing as the value of `theme.extend`
in the source: an object literal holding exactly the key/value pairs of
`defaultTheme`. -/
def themeExtendSpread (defaultTheme : List (String × String)) :
    List (String × String) :=
  defaultTheme

/-- The configuration record built by `src/tailwind.config.js`, as a function
of the `defaultTheme` object obtained from `require('tailwindcss/defaultTheme')`
(a value of the external framework, not part of this repository).
`plugins` records the module specifier required for each plugin entry. -/
def tailwindConfig (defaultTheme : List (String × String)) : Config where
  content := ["./templates/*.html", "./static/css/*.css"]
  darkMode := none
  theme := { extend := themeExtendSpread defaultTheme }
  plugins := ["@tailwindcss/forms"]
  safelist := ["invisible"]

/-- The top-level keys of the exported object literal, in source order.
The `darkMode` key does not occur in `src/tailwind.config.js`. -/
def configTopLevelKeys : List String :=
  ["content", "theme", "plugins", "safelist"]

/-- The top-level configuration keys recognized by the external tool,
as enumerated by the specification. -/
def recognizedKeys : List String :=
  ["content", "darkMode", "theme", "plugins", "safelist"]

/-- Modelled from the spec: the second near-duplicate variant of the
configuration file mentioned by the specification but not present under
`src/`; per the spec it differs from the first variant only by setting
`darkMode: 'class'`. -/
def tailwindConfigClassVariant (defaultTheme : List (String × String)) :
    Config :=
  { tailwindConfig defaultTheme with darkMode := some "class" }

/-- Evaluation of the configuration file.  The only fallible steps in the
source are the two `require` calls; each is modelled by a flag saying
whether the module resolves.  When both resolve, the file unconditionally
constructs and exports the record. -/
def evalConfigFile (defaultThemeResolves formsResolves : Bool)
    (defaultTheme : List (String × String)) : Except String Config :=
  if !defaultThemeResolves then
    Except.error "Cannot find module tailwindcss/defaultTheme"
  else if !formsResolves then
    Except.error "Cannot find module @tailwindcss/forms"
  else
    Except.ok (tailwindConfig defaultTheme)

set_option linter.unusedVariables false in
/-- Evaluation of the configuration file in an ambient process environment:
the environment variables and command-line arguments available to the
process.  The source file reads neither, so the body does not consult them. -/
def evalConfigFileInEnv (envVars : List (String × String))
    (cliArgs : List String) (defaultThemeResolves formsResolves : Bool)
    (defaultTheme : List (String × String)) : Except String Config :=
  if !defaultThemeResolves then
    Except.error "Cannot find module tailwindcss/defaultTheme"
  else if !formsResolves then
    Except.error "Cannot find module @tailwindcss/forms"
  else
    Except.ok (tailwindConfig defaultTheme)

/-- Lookup of a key in an object embedded as an association list: the value
at the first matching key, as JavaScript property access on an object whose
later duplicate keys have been collapsed. -/
def lookupKey (m : List (String × String)) (k : String) : Option String :=
  match m with
  | [] => none
  | (k₀, v₀) :: rest => if k₀ = k then some v₀ else lookupKey rest k

/-- Modelled from the spec: the external tool's merge of `theme.extend` on
top of the framework default theme tokens — keys of the extension override
same-named defaults, all other defaults pass through unchanged.  With
first-match lookup this is concatenation with the extension in front. -/
def mergeTheme (defaults extension : List (String × String)) :
    List (String × String) :=
  extension ++ defaults

/-- Modelled from the spec: the set of class names present in the generated
CSS — every class detected by scanning the content files, together with
every safelisted class, which is force-included regardless of scan results. -/
def generatedClasses (c : Config) (scannedClasses : List String) :
    List String :=
  scannedClasses ++ c.safelist

/-- Modelled from the spec: the dark-mode strategy the external tool adopts
for a configuration — class-selector gating when `darkMode` is set to
`'class'`, and the default media-query gating when the key is absent. -/
inductive DarkModeStrategy where
  | mediaQuery
  | classSelector
  deriving Repr, DecidableEq

/-- Modelled from the spec: how the external tool selects the dark-mode
strategy from the configuration record: `darkMode: 'class'` selects
class-selector gating, absence of the key selects the media-query default. -/
def darkModeStrategy (c : Config) : DarkModeStrategy :=
  match c.darkMode with
  | some s =>
      if s = "class" then DarkModeStrategy.classSelector
      else DarkModeStrategy.mediaQuery
  | none => DarkModeStrategy.mediaQuery

/-- Modelled from the spec: validity of a file-path glob pattern handed to
the external scanner — a non-empty pattern string. -/
def isValidGlobPattern (s : String) : Bool :=
  !s.isEmpty

/-- Matching of a `*` wildcard against a path: the wildcard absorbs any
(possibly empty) run of characters other than the path separator `/`, after
which the continuation `k` must accept the remaining path. -/
def starMatch (k : List Char → Bool) : List Char → Bool
  | [] => k []
  | c :: cs => k (c :: cs) || (c ≠ '/' && starMatch k cs)

/-- Modelled from the spec: single-segment glob matching as performed by the
external content scanner.  A literal character matches itself and `*`
matches any (possibly empty) run of characters not containing the path
separator `/`. -/
def globMatch : List Char → List Char → Bool
  | [], path => path.isEmpty
  | p :: ps, path =>
      if p = '*' then starMatch (globMatch ps) path
      else
        match path with
        | [] => false
        | c :: cs => p = c && globMatch ps cs

/-- A path is scanned by the external tool when it matches one of the glob
patterns of the configuration's `content` field. -/
def isScanned (c : Config) (path : String) : Bool :=
  c.content.any (fun pat => globMatch pat.data path.data)

example : "ab".data = ['a', 'b'] := rfl
example : "./templates/*.html".data =
    "./templates/".data ++ '*' :: ".html".data := rfl
example : isScanned (tailwindConfig []) "./templates/index.html" = true := rfl
example : isScanned (tailwindConfig []) "./app.js" = false := rfl
example : isScanned (tailwindConfig []) "./templates/sub/x.html" = false := rfl

/-- A star-free pattern matches exactly itself. -/
lemma globMatch_literal (ps : List Char) (hps : '*' ∉ ps) (path : List Char)
    (h : globMatch ps path = true) : path = ps := by
  induction ps generalizing path with
  | nil =>
      cases path with
      | nil => rfl
      | cons c cs => simp [globMatch] at h
  | cons p ps ih =>
      have hp : p ≠ '*' := fun hx => hps (by simp [hx])
      cases path with
      | nil => simp [globMatch, hp] at h
      | cons c cs =>
          simp [globMatch, hp] at h
          obtain ⟨hc, hm⟩ := h
          have := ih (fun hx => hps (List.mem_cons_of_mem _ hx)) cs hm
          simp [hc, this]

/-- A pattern beginning with a star-free literal prefix forces the path to
begin with that literal. -/
lemma globMatch_literal_append (pre rest : List Char) (hpre : '*' ∉ pre)
    (path : List Char) (h : globMatch (pre ++ rest) path = true) :
    ∃ tail, path = pre ++ tail ∧ globMatch rest tail = true := by
  induction pre generalizing path with
  | nil => exact ⟨path, rfl, by simpa using h⟩
  | cons p pre ih =>
      have hp : p ≠ '*' := fun hx => hpre (by simp [hx])
      cases path with
      | nil => simp [globMatch, hp] at h
      | cons c cs =>
          simp [globMatch, hp] at h
          obtain ⟨hc, hm⟩ := h
          obtain ⟨tail, htail, hmatch⟩ :=
            ih (fun hx => hpre (List.mem_cons_of_mem _ hx)) cs hm
          exact ⟨tail, by simp [hc, htail], hmatch⟩

/-- A star absorbs a separator-free run of characters, after which the
continuation accepts the rest. -/
lemma starMatch_decomp (k : List Char → Bool) (path : List Char)
    (h : starMatch k path = true) :
    ∃ mid tail, path = mid ++ tail ∧ '/' ∉ mid ∧ k tail = true := by
  induction path with
  | nil => exact ⟨[], [], rfl, by simp, by simpa [starMatch] using h⟩
  | cons c cs ih =>
      simp [starMatch] at h
      rcases h with h | ⟨hc, h⟩
      · exact ⟨[], c :: cs, rfl, by simp, h⟩
      · obtain ⟨mid, tail, heq, hmid, hk⟩ := ih h
        refine ⟨c :: mid, tail, by simp [heq], ?_, hk⟩
        simp [hmid]
        exact fun hx => hc hx.symm

/-- Unfolding of `globMatch` on a pattern beginning with `*`. -/
lemma globMatch_star (ps path : List Char) :
    globMatch ('*' :: ps) path = starMatch (globMatch ps) path := by
  simp [globMatch]

/-- A pattern of the shape `pre*suf` with star-free `pre` and `suf` matches
exactly the paths `pre ++ mid ++ suf` with no separator in `mid`. -/
lemma globMatch_pre_star_suf (pre suf path : List Char)
    (hpre : '*' ∉ pre) (hsuf : '*' ∉ suf)
    (h : globMatch (pre ++ '*' :: suf) path = true) :
    ∃ mid, path = pre ++ mid ++ suf ∧ '/' ∉ mid := by
  obtain ⟨tail, htail, h2⟩ := globMatch_literal_append pre ('*' :: suf) hpre path h
  rw [globMatch_star] at h2
  obtain ⟨mid, tail2, heq, hmid, hk⟩ := starMatch_decomp _ _ h2
  have hsufeq := globMatch_literal suf hsuf tail2 hk
  subst hsufeq
  exact ⟨mid, by simp [htail, heq], hmid⟩

/-- A character list ending in `.html` does not also end in `.js`. -/
lemma ends_html_not_ends_js (a b path : List Char)
    (h1 : path = a ++ ['.', 'h', 't', 'm', 'l'])
    (h2 : path = b ++ ['.', 'j', 's']) : False := by
  have h := h1.symm.trans h2
  have h3 := congrArg List.reverse h
  simp [List.reverse_append] at h3

/-- A character list ending in `.css` does not also end in `.js`. -/
lemma ends_css_not_ends_js (a b path : List Char)
    (h1 : path = a ++ ['.', 'c', 's', 's'])
    (h2 : path = b ++ ['.', 'j', 's']) : False := by
  have h := h1.symm.trans h2
  have h3 := congrArg List.reverse h
  simp [List.reverse_append] at h3

/-- A key bound by the first list of an append is looked up there. -/
lemma lookupKey_append_of_some (a b : List (String × String)) (k v : String)
    (h : lookupKey a k = some v) : lookupKey (a ++ b) k = some v := by
  induction a with
  | nil => simp [lookupKey] at h
  | cons p rest ih =>
      obtain ⟨k₀, v₀⟩ := p
      simp only [lookupKey, List.cons_append] at h ⊢
      by_cases hk : k₀ = k
      · simpa [hk] using h
      · rw [if_neg hk] at h ⊢
        exact ih h

/-- A key absent from the first list of an append is looked up in the
second. -/
lemma lookupKey_append_of_none (a b : List (String × String)) (k : String)
    (h : lookupKey a k = none) : lookupKey (a ++ b) k = lookupKey b k := by
  induction a with
  | nil => simp [lookupKey]
  | cons p rest ih =>
      obtain ⟨k₀, v₀⟩ := p
      simp only [lookupKey, List.cons_append] at h ⊢
      by_cases hk : k₀ = k
      · simp [hk] at h
      · rw [if_neg hk] at h ⊢
        exact ih h

/-- Claim C1: the configuration's safelist contains the class name
`invisible`, and every safelisted class appears in the generated output for
every possible scan result, so `invisible` is generated regardless of
scanning. -/
theorem safelist_classes_always_generated
    (defaultTheme : List (String × String)) (scannedClasses : List String)
    (c : Config) (s : String) (hs : s ∈ c.safelist) :
    "invisible" ∈ (tailwindConfig defaultTheme).safelist ∧
    s ∈ generatedClasses c scannedClasses ∧
    "invisible" ∈ generatedClasses (tailwindConfig defaultTheme) scannedClasses := by
  refine ⟨by simp [tailwindConfig], ?_, ?_⟩
  · exact List.mem_append_right _ hs
  · exact List.mem_append_right _ (by simp [tailwindConfig])

/-- Witness for C1 at the configuration itself, with an empty scan result. -/
theorem safelist_classes_always_generated_witness :
    "invisible" ∈ generatedClasses (tailwindConfig []) [] :=
  (safelist_classes_always_generated [] [] (tailwindConfig []) "invisible"
    (by simp [tailwindConfig])).2.2

/-- Claim C2: the loaded configuration's `content` field is non-empty and
every element is a valid glob pattern. -/
theorem content_nonempty_all_valid_globs
    (defaultTheme : List (String × String)) :
    (tailwindConfig defaultTheme).content ≠ [] ∧
    (tailwindConfig defaultTheme).content.all isValidGlobPattern = true :=
  ⟨by simp [tailwindConfig], rfl⟩

/-- Witness for C2 at the empty default theme. -/
theorem content_nonempty_all_valid_globs_witness :
    (tailwindConfig []).content ≠ [] ∧
    (tailwindConfig []).content.all isValidGlobPattern = true :=
  content_nonempty_all_valid_globs []

/-- Claim C3: the two configuration variants agree on every field except
`darkMode`, which is absent in the variant under version control in `src/`
and set to the class strategy in the other. -/
theorem variants_differ_only_in_darkMode
    (defaultTheme : List (String × String)) :
    (tailwindConfig defaultTheme).darkMode = none ∧
    (tailwindConfigClassVariant defaultTheme).darkMode = some "class" ∧
    (tailwindConfigClassVariant defaultTheme).content =
      (tailwindConfig defaultTheme).content ∧
    (tailwindConfigClassVariant defaultTheme).theme =
      (tailwindConfig defaultTheme).theme ∧
    (tailwindConfigClassVariant defaultTheme).plugins =
      (tailwindConfig defaultTheme).plugins ∧
    (tailwindConfigClassVariant defaultTheme).safelist =
      (tailwindConfig defaultTheme).safelist :=
  ⟨rfl, rfl, rfl, rfl, rfl, rfl⟩

/-- Claim C4: a key present in the extension overrides the same-named
default in the merged theme, and a key absent from the extension passes the
default through unchanged. -/
theorem theme_extend_merge_override_and_pass_through
    (defaults extension : List (String × String)) (k : String) :
    (∀ v, lookupKey extension k = some v →
      lookupKey (mergeTheme defaults extension) k = some v) ∧
    (lookupKey extension k = none →
      lookupKey (mergeTheme defaults extension) k = lookupKey defaults k) := by
  constructor
  · intro v hv
    exact lookupKey_append_of_some _ _ _ _ hv
  · intro hn
    exact lookupKey_append_of_none _ _ _ hn

/-- Witness for C4: an extension key overrides the default and an
unextended key passes through. -/
theorem theme_extend_merge_override_and_pass_through_witness :
    lookupKey (mergeTheme [("a", "1"), ("b", "2")] [("a", "9")]) "a" =
      some "9" ∧
    lookupKey (mergeTheme [("a", "1"), ("b", "2")] [("a", "9")]) "b" =
      some "2" :=
  ⟨(theme_extend_merge_override_and_pass_through
      [("a", "1"), ("b", "2")] [("a", "9")] "a").1 "9" rfl,
   ((theme_extend_merge_override_and_pass_through
      [("a", "1"), ("b", "2")] [("a", "9")] "b").2 rfl).trans rfl⟩

/-- Claim C5: absence of the `darkMode` key selects the default media-query
strategy, setting it to the class value selects class-selector gating, and
the configuration in this file, where the key is absent, gets the
media-query strategy. -/
theorem darkMode_absent_media_query_present_class
    (defaultTheme : List (String × String)) (c : Config) :
    (c.darkMode = none → darkModeStrategy c = DarkModeStrategy.mediaQuery) ∧
    (c.darkMode = some "class" →
      darkModeStrategy c = DarkModeStrategy.classSelector) ∧
    darkModeStrategy (tailwindConfig defaultTheme) =
      DarkModeStrategy.mediaQuery := by
  refine ⟨?_, ?_, rfl⟩
  · intro h
    simp [darkModeStrategy, h]
  · intro h
    simp [darkModeStrategy, h]

/-- Witness for C5: the file's configuration gets media-query gating, and a
configuration with the class value gets class-selector gating. -/
theorem darkMode_absent_media_query_present_class_witness :
    darkModeStrategy (tailwindConfig []) = DarkModeStrategy.mediaQuery ∧
    darkModeStrategy ⟨[], some "class", ⟨[]⟩, [], []⟩ =
      DarkModeStrategy.classSelector :=
  ⟨(darkMode_absent_media_query_present_class [] (tailwindConfig [])).1 rfl,
   (darkMode_absent_media_query_present_class []
      ⟨[], some "class", ⟨[]⟩, [], []⟩).2.1 rfl⟩

/-- Claim C6: every top-level key of the exported record is recognized, and
each field has the stated shape: `content` is the two glob strings,
`darkMode` is absent, `theme` carries the extend sub-object, `plugins` is
the forms-plugin invocation, and `safelist` is a list of strings. -/
theorem exported_record_shape (defaultTheme : List (String × String)) :
    configTopLevelKeys.all (fun k => recognizedKeys.contains k) = true ∧
    (tailwindConfig defaultTheme).content =
      ["./templates/*.html", "./static/css/*.css"] ∧
    (tailwindConfig defaultTheme).darkMode = none ∧
    (tailwindConfig defaultTheme).theme.extend = themeExtendSpread defaultTheme ∧
    (tailwindConfig defaultTheme).plugins = ["@tailwindcss/forms"] ∧
    (tailwindConfig defaultTheme).safelist = ["invisible"] :=
  ⟨rfl, rfl, rfl, rfl, rfl, rfl⟩

/-- Claim C7: when both required modules resolve, evaluating the file
always succeeds with the exported record; the only failure modes are the
two unresolvable module references, reported as errors to the consumer. -/
theorem eval_total_given_resolving_modules
    (defaultTheme : List (String × String)) :
    evalConfigFile true true defaultTheme =
      Except.ok (tailwindConfig defaultTheme) ∧
    (∀ formsResolves dt, evalConfigFile false formsResolves dt =
      Except.error "Cannot find module tailwindcss/defaultTheme") ∧
    (∀ dt, evalConfigFile true false dt =
      Except.error "Cannot find module @tailwindcss/forms") :=
  ⟨rfl, fun _ _ => rfl, fun _ => rfl⟩

/-- Claim C8: evaluation of the file is deterministic and independent of
environment variables and command-line arguments, and always yields the
same record as the environment-free evaluation. -/
theorem eval_deterministic_env_independent
    (env₁ env₂ : List (String × String)) (args₁ args₂ : List String)
    (dtResolves formsResolves : Bool)
    (defaultTheme : List (String × String)) :
    evalConfigFileInEnv env₁ args₁ dtResolves formsResolves defaultTheme =
      evalConfigFileInEnv env₂ args₂ dtResolves formsResolves defaultTheme ∧
    evalConfigFileInEnv env₁ args₁ dtResolves formsResolves defaultTheme =
      evalConfigFile dtResolves formsResolves defaultTheme :=
  ⟨rfl, rfl⟩

/-- Claim C9: the `theme.extend` object is exactly the spread of the
default theme, and merging it over the default theme is the identity: every
key looks up to its default value in the merged theme. -/
theorem theme_extend_spread_merge_identity
    (defaultTheme : List (String × String)) (k : String) :
    themeExtendSpread defaultTheme = defaultTheme ∧
    lookupKey (mergeTheme defaultTheme (themeExtendSpread defaultTheme)) k =
      lookupKey defaultTheme k := by
  refine ⟨rfl, ?_⟩
  show lookupKey (defaultTheme ++ defaultTheme) k = lookupKey defaultTheme k
  rcases hv : lookupKey defaultTheme k with _ | v
  · exact (lookupKey_append_of_none _ _ _ hv).trans hv
  · exact lookupKey_append_of_some _ _ _ _ hv

/-- Claim C10: the `content` field is exactly the two stated glob patterns;
every scanned path is an HTML file directly under `./templates` or a CSS
file directly under `./static/css`, and no path ending in `.js` is ever
scanned. -/
theorem content_scans_only_templates_html_and_static_css
    (defaultTheme : List (String × String)) (path : String)
    (h : isScanned (tailwindConfig defaultTheme) path = true) :
    (tailwindConfig defaultTheme).content =
      ["./templates/*.html", "./static/css/*.css"] ∧
    ((∃ mid, path.data = "./templates/".data ++ mid ++ ".html".data ∧
        '/' ∉ mid) ∨
     (∃ mid, path.data = "./static/css/".data ++ mid ++ ".css".data ∧
        '/' ∉ mid)) ∧
    ∀ b : List Char, path.data ≠ b ++ ['.', 'j', 's'] := by
  have hd : (∃ mid, path.data = "./templates/".data ++ mid ++ ".html".data ∧
        '/' ∉ mid) ∨
      (∃ mid, path.data = "./static/css/".data ++ mid ++ ".css".data ∧
        '/' ∉ mid) := by
    simp only [isScanned, tailwindConfig, List.any_cons, List.any_nil,
      Bool.or_false, Bool.or_eq_true] at h
    rcases h with h | h
    · exact Or.inl (globMatch_pre_star_suf "./templates/".data ".html".data
        path.data (by decide) (by decide) h)
    · exact Or.inr (globMatch_pre_star_suf "./static/css/".data ".css".data
        path.data (by decide) (by decide) h)
  refine ⟨rfl, hd, ?_⟩
  intro b hb
  rcases hd with ⟨mid, heq, -⟩ | ⟨mid, heq, -⟩
  · exact ends_html_not_ends_js ("./templates/".data ++ mid) b path.data heq hb
  · exact ends_css_not_ends_js ("./static/css/".data ++ mid) b path.data heq hb

/-- Witness for C10 at a concrete scanned path. -/
theorem content_scans_only_templates_html_and_static_css_witness :
    (∃ mid, "./templates/index.html".data =
        "./templates/".data ++ mid ++ ".html".data ∧ '/' ∉ mid) ∨
    (∃ mid, "./templates/index.html".data =
        "./static/css/".data ++ mid ++ ".css".data ∧ '/' ∉ mid) :=
  (content_scans_only_templates_html_and_static_css []
    "./templates/index.html" rfl).2.1

end TailwindConfig
